import Mathlib

/-!
Verification of the run-status-sensor evaluation core of
`dagster/_core/definitions/run_status_sensor_definition.py`.

The development shallowly embeds the cursor codec (`RunStatusSensorCursor`),
the scope matcher, the evaluator boundary and the per-tick scan loop of
`RunStatusSensorDefinition._wrapped_fn`, together with the registration path
of the `run_status_sensor` decorator and the direct-invocation dispatcher
`RunStatusSensorDefinition.__call__`.  External collaborators (the event-log
store, the run-record store, the serdes machinery) are modelled from their
documented interfaces.
-/

namespace Dagster

/-! ## Cursor and its serialized form -/

/-- The cursor `RunStatusSensorCursor`: the persisted resume position
`{record_id, update_timestamp}` (source lines 76-103). -/
structure RunStatusSensorCursor where
  record_id : Int
  update_timestamp : String
deriving DecidableEq, Repr

/-- A primitive field of a serialized named tuple. -/
inductive SField where
  | fint (name : String) (n : Int)
  | fstr (name : String) (s : String)
deriving DecidableEq, Repr

/-- Modelled from the spec: the serialized (packed) form of a whitelisted
named tuple — a versioned value carrying a class tag and named primitive
fields.  The serdes implementation itself is not part of the sources under
verification; only its interface (`serialize_value` / `deserialize_value` /
`register_serdes_tuple_fallbacks`) is. -/
structure SValue where
  className : String
  fields : List SField
deriving DecidableEq, Repr

/-- Modelled from the spec: the static alias table registered by
`register_serdes_tuple_fallbacks({"PipelineSensorCursor": RunStatusSensorCursor})`
(source line 107): the decoder consults it before the primary class tag. -/
def serdes_tuple_fallbacks : List (String × String) :=
  [("PipelineSensorCursor", "RunStatusSensorCursor")]

/-- Resolve a serialized class tag through the fallback alias table. -/
def resolve_serdes_class (n : String) : String :=
  match serdes_tuple_fallbacks.lookup n with
  | some target => target
  | none => n

/-- Look up an integer field of a packed value by name. -/
def lookup_int_field : List SField → String → Option Int
  | [], _ => none
  | SField.fint n v :: rest, k => if n = k then some v else lookup_int_field rest k
  | SField.fstr _ _ :: rest, k => lookup_int_field rest k

/-- Look up a string field of a packed value by name. -/
def lookup_str_field : List SField → String → Option String
  | [], _ => none
  | SField.fstr n v :: rest, k => if n = k then some v else lookup_str_field rest k
  | SField.fint _ _ :: rest, k => lookup_str_field rest k

/-- Encoding `RunStatusSensorCursor.to_json` (source line 98): serialize the cursor as a
whitelisted named tuple tagged with its class name. -/
def RunStatusSensorCursor.to_json (c : RunStatusSensorCursor) : SValue :=
  { className := "RunStatusSensorCursor",
    fields := [SField.fint "record_id" c.record_id,
               SField.fstr "update_timestamp" c.update_timestamp] }

/-- Decoding `RunStatusSensorCursor.from_json` (source line 101): deserialize, accepting
the legacy class tag through the fallback table and failing on malformed
input. -/
def RunStatusSensorCursor.from_json (v : SValue) : Except String RunStatusSensorCursor :=
  if resolve_serdes_class v.className = "RunStatusSensorCursor" then
    match lookup_int_field v.fields "record_id",
          lookup_str_field v.fields "update_timestamp" with
    | some r, some t => Except.ok { record_id := r, update_timestamp := t }
    | _, _ => Except.error "DeserializationError: malformed RunStatusSensorCursor"
  else
    Except.error ("DeserializationError: unexpected class " ++ v.className)

/-- Validation `RunStatusSensorCursor.is_valid` (source line 90): never throws, reports
whether deserialization would succeed. -/
def RunStatusSensorCursor.is_valid (v : SValue) : Bool :=
  match RunStatusSensorCursor.from_json v with
  | Except.ok _ => true
  | Except.error _ => false

/-! ## Events, runs and the external stores -/

/-- An event-log record as seen by the sensor: storage id, event type, the id
of the run that emitted it, and the event timestamp
(`event_record.storage_id` / `event_log_entry`). -/
structure EventRecord where
  storage_id : Int
  event_type : String
  run_id : String
  timestamp : String
deriving DecidableEq, Repr

/-- The external origin of a run:
`external_pipeline_origin.external_repository_origin`, carrying
`repository_location_origin.location_name` and `repository_name`. -/
structure ExternalRepositoryOrigin where
  location_name : String
  repository_name : String
deriving DecidableEq, Repr

/-- A `DagsterRun` restricted to the fields the sensor inspects.  A manually
executed run has no `external_pipeline_origin`. -/
structure DagsterRun where
  run_id : String
  pipeline_name : String
  external_pipeline_origin : Option ExternalRepositoryOrigin
deriving DecidableEq, Repr

/-- A run record from `instance.get_run_records`: the run plus its update
timestamp. -/
structure RunRecord where
  dagster_run : DagsterRun
  update_timestamp : String
deriving DecidableEq, Repr

/-- The read-only stores the tick consults: the append-only event log
(ascending in `storage_id`) and the run database. -/
structure StoreInstance where
  event_log : List EventRecord
  run_db : List RunRecord
deriving DecidableEq, Repr

/-- Modelled from the spec: `instance.get_event_records` with an
`after_cursor` id, `ascending=True` and a `limit` — the Event Store interface
returns the ordered window of events of the monitored type with
`id > after_id`, at most `limit` of them. -/
def get_event_records_asc (log : List EventRecord) (event_type : String)
    (after_id : Int) (limit : Nat) : List EventRecord :=
  (log.filter (fun e => decide (e.event_type = event_type ∧ after_id < e.storage_id))).take limit

/-- Modelled from the spec: `instance.get_event_records` with
`ascending=False` and a `limit` — the most recent events of the monitored
type first. -/
def get_event_records_desc (log : List EventRecord) (event_type : String)
    (limit : Nat) : List EventRecord :=
  ((log.filter (fun e => decide (e.event_type = event_type))).reverse).take limit

/-- Modelled from the spec: `instance.get_run_records(RunsFilter(run_ids=[rid]))`
— the Run Record Store lookup by run id. -/
def get_run_records (db : List RunRecord) (run_id : String) : List RunRecord :=
  db.filter (fun r => decide (r.dagster_run.run_id = run_id))

/-- Modelled from the spec: `utc_datetime_from_timestamp(...).isoformat()` —
rendering of the event's own timestamp; the model identifies a timestamp with
its rendered string. -/
def utc_datetime_from_timestamp (t : String) : String := t

/-! ## Selectors and the interest scope -/

/-- Selector `RepositorySelector`: an external repository `(location, repository)`. -/
structure RepositorySelector where
  location_name : String
  repository_name : String
deriving DecidableEq, Repr

/-- Selector `JobSelector`: an external job `(location, repository, job)`. -/
structure JobSelector where
  location_name : String
  repository_name : String
  job_name : String
deriving DecidableEq, Repr

/-- One entry of `monitored_jobs`: a job definition in the current repository
(identified by name), an external `JobSelector`, an external
`RepositorySelector`, or a `CodeLocationSelector`. -/
inductive MonitoredJob where
  | currentJob (name : String)
  | jobSel (s : JobSelector)
  | repoSel (s : RepositorySelector)
  | codeLocationSel (location_name : String)
deriving DecidableEq, Repr

/-- Source line 463: coerce `CodeLocationSelector`s to `RepositorySelector`s
with repository name `__repository__`. -/
def coerce_monitored_jobs (jobs : List MonitoredJob) : List MonitoredJob :=
  jobs.map fun j =>
    match j with
    | MonitoredJob.codeLocationSel loc =>
        MonitoredJob.repoSel { location_name := loc, repository_name := "__repository__" }
    | other => other

/-- Source line 474: the `RepositorySelector` entries of `monitored_jobs`. -/
def other_repos (jobs : List MonitoredJob) : List RepositorySelector :=
  jobs.filterMap fun j =>
    match j with
    | MonitoredJob.repoSel s => some s
    | _ => none

/-- Source line 480: the `JobSelector` entries of `monitored_jobs`. -/
def other_repo_jobs (jobs : List MonitoredJob) : List JobSelector :=
  jobs.filterMap fun j =>
    match j with
    | MonitoredJob.jobSel s => some s
    | _ => none

/-- Source line 484: names of the current-repository jobs of
`monitored_jobs`. -/
def current_repo_job_names (jobs : List MonitoredJob) : List String :=
  jobs.filterMap fun j =>
    match j with
    | MonitoredJob.currentJob n => some n
    | _ => none

/-- The data a constructed `RunStatusSensorDefinition` closes over: name,
monitored run status, the event type mapped from it, the (coerced)
`monitored_jobs` list and the `monitor_all_repositories` flag. -/
structure SensorSetup where
  name : String
  run_status : String
  event_type : String
  monitored_jobs : List MonitoredJob
  monitor_all_repositories : Bool
deriving DecidableEq, Repr

/-! ## Evaluator boundary -/

/-- The information captured from a raised Python exception. -/
structure ExcInfo where
  message : String
  stack : List String
deriving DecidableEq, Repr

/-- A serializable error descriptor: message plus structured trace. -/
structure SerializableErrorInfo where
  message : String
  stack : List String
deriving DecidableEq, Repr

/-- Modelled from the spec: `serializable_error_info_from_exc_info` converts a
captured exception into a serializable descriptor preserving its message and
structured trace. -/
def serializable_error_info_from_exc_info (e : ExcInfo) : SerializableErrorInfo :=
  { message := e.message, stack := e.stack }

/-- A tick output: `RunRequest`, `SkipReason`, or `PipelineRunReaction`
carrying the source run, the monitored status and an optional error. -/
inductive TickOutput where
  | runRequest (run_key : String)
  | skipReason (message : String)
  | pipelineRunReaction (pipeline_run : DagsterRun) (run_status : String)
      (error : Option SerializableErrorInfo)
deriving DecidableEq, Repr

/-- The behavior of one invocation of the user evaluation function inside
`user_code_error_boundary`: it raises, returns `None`, or returns a non-None
value (a single output or a sequence of outputs, both modelled as the list of
outputs it yields). -/
inductive SensorFnResult where
  | raises (e : ExcInfo)
  | returnsNone
  | returns (outputs : List TickOutput)
deriving DecidableEq, Repr

/-- The `RunStatusSensorContext` handed to the user function (source line
625): sensor name, the resolved run and the triggering event. -/
structure RunStatusSensorContextV where
  sensor_name : String
  dagster_run : DagsterRun
  dagster_event : EventRecord
deriving DecidableEq, Repr

/-! ## Scope matcher -/

/-- The outcome of attributing one resolved event to the sensor's interest
scope: a match, no match, or a raised check error (when the source slips past
a `None` origin into `check.not_none`). -/
inductive MatchOutcome where
  | matched
  | noMatch
  | raisedCheck
deriving DecidableEq, Repr

/-- The scope-matching logic of `_wrapped_fn` (source lines 562-605): a
monitor-all sensor matches everything; otherwise a run from the current
repository matches according to `monitored_jobs`; otherwise the run's
`(location, repository, job)` is compared against the external selectors —
after a `check.not_none` on the origin, which raises when the run was
manually executed. -/
def scope_match (setup : SensorSetup) (repository_name : String)
    (pipeline_run : DagsterRun) : MatchOutcome :=
  let job_match_current : Bool :=
    match pipeline_run.external_pipeline_origin with
    | some origin =>
      if origin.repository_name = repository_name then
        if setup.monitored_jobs = [] then true
        else decide (pipeline_run.pipeline_name ∈ current_repo_job_names setup.monitored_jobs)
      else false
    | none => false
  if setup.monitor_all_repositories || job_match_current then MatchOutcome.matched
  else
    match pipeline_run.external_pipeline_origin with
    | none => MatchOutcome.raisedCheck
    | some origin =>
      let run_job_selector : JobSelector :=
        { location_name := origin.location_name,
          repository_name := origin.repository_name,
          job_name := pipeline_run.pipeline_name }
      let run_repo_selector : RepositorySelector :=
        { location_name := origin.location_name,
          repository_name := origin.repository_name }
      if run_job_selector ∈ other_repo_jobs setup.monitored_jobs
          ∨ run_repo_selector ∈ other_repos setup.monitored_jobs then
        MatchOutcome.matched
      else MatchOutcome.noMatch

/-! ## The tick -/

/-- The observable result of one tick: the cursor values persisted by
`context.update_cursor`, in order; the outputs yielded, in order; and whether
an uncaught check error escaped to the driver. -/
structure TickResult where
  cursor_updates : List RunStatusSensorCursor
  outputs : List TickOutput
  raised_check_error : Bool
deriving DecidableEq, Repr

/-- Prepend one persisted cursor to a tick result. -/
def TickResult.with_update (c : RunStatusSensorCursor) (r : TickResult) : TickResult :=
  { cursor_updates := c :: r.cursor_updates,
    outputs := r.outputs,
    raised_check_error := r.raised_check_error }

/-- Processing of a single batch event in `_wrapped_fn` (source lines
535-668), given the (lazily used) result of processing the rest of the
batch: resolve the run record (skip with the event's approximate timestamp if
not exactly one record); apply the scope matcher (skip with the run's update
timestamp on no match, propagate the check error on a `None` origin); on a
match invoke the user function — a non-None return stops the tick with the
returned outputs, while an error or a `None` return yields a single
`PipelineRunReaction` and continues with the rest of the batch. -/
def step_result (setup : SensorSetup) (repository_name : String)
    (db : List RunRecord) (fn : RunStatusSensorContextV → SensorFnResult)
    (er : EventRecord) (rest : TickResult) : TickResult :=
  match get_run_records db er.run_id with
  | [rr] =>
    match scope_match setup repository_name rr.dagster_run with
    | MatchOutcome.raisedCheck =>
      { cursor_updates := [], outputs := [], raised_check_error := true }
    | MatchOutcome.noMatch =>
      TickResult.with_update
        { record_id := er.storage_id, update_timestamp := rr.update_timestamp } rest
    | MatchOutcome.matched =>
      match fn { sensor_name := setup.name, dagster_run := rr.dagster_run,
                 dagster_event := er } with
      | SensorFnResult.returns outs =>
        { cursor_updates := [{ record_id := er.storage_id,
                               update_timestamp := rr.update_timestamp }],
          outputs := outs, raised_check_error := false }
      | SensorFnResult.returnsNone =>
        { cursor_updates := { record_id := er.storage_id,
                              update_timestamp := rr.update_timestamp } :: rest.cursor_updates,
          outputs := TickOutput.pipelineRunReaction rr.dagster_run setup.run_status none
                       :: rest.outputs,
          raised_check_error := rest.raised_check_error }
      | SensorFnResult.raises e =>
        { cursor_updates := { record_id := er.storage_id,
                              update_timestamp := rr.update_timestamp } :: rest.cursor_updates,
          outputs := TickOutput.pipelineRunReaction rr.dagster_run setup.run_status
                       (some (serializable_error_info_from_exc_info e)) :: rest.outputs,
          raised_check_error := rest.raised_check_error }
  | _ =>
    TickResult.with_update
      { record_id := er.storage_id,
        update_timestamp := utc_datetime_from_timestamp er.timestamp } rest

/-- The scan loop of `_wrapped_fn` over the fetched batch (source lines
535-668). -/
def scan_events (setup : SensorSetup) (repository_name : String)
    (db : List RunRecord) (fn : RunStatusSensorContextV → SensorFnResult) :
    List EventRecord → TickResult
  | [] => { cursor_updates := [], outputs := [], raised_check_error := false }
  | er :: rest =>
    step_result setup repository_name db fn er
      (scan_events setup repository_name db fn rest)

/-- The bootstrap query of `_wrapped_fn` (source lines 497-506): the most
recent event id of the monitored type, or `-1` if there is none. -/
def most_recent_event_id (log : List EventRecord) (event_type : String) : Int :=
  match get_event_records_desc log event_type 1 with
  | [e] => e.storage_id
  | _ => -1

/-- The per-tick sensor evaluation context: the current repository name and
the stored cursor string (if any). -/
structure SensorEvalContext where
  repository_name : String
  cursor : Option SValue
deriving DecidableEq, Repr

/-- The tick body `_wrapped_fn` (source lines 490-668), one tick: with no stored cursor or
an invalid one, bootstrap — set the cursor to the most recent event id of the
monitored type (or `-1`) with the current timestamp and yield a single
`SkipReason`; otherwise fetch up to 5 events of the monitored type after the
cursor id, ascending, and run the scan loop over them. -/
def wrapped_fn (setup : SensorSetup) (inst : StoreInstance)
    (ctx : SensorEvalContext) (fn : RunStatusSensorContextV → SensorFnResult)
    (now : String) : TickResult :=
  let bootstrap : TickResult :=
    let mrid := most_recent_event_id inst.event_log setup.event_type
    { cursor_updates := [{ record_id := mrid, update_timestamp := now }],
      outputs := [TickOutput.skipReason
        ("Initiating " ++ setup.name ++ ". Set cursor to record_id " ++ toString mrid)],
      raised_check_error := false }
  match ctx.cursor with
  | none => bootstrap
  | some cv =>
    match RunStatusSensorCursor.from_json cv with
    | Except.error _ => bootstrap
    | Except.ok c =>
      scan_events setup ctx.repository_name inst.run_db fn
        (get_event_records_asc inst.event_log setup.event_type c.record_id 5)

/-! ## Registration and direct invocation -/

/-- A definition-time error. -/
inductive DefinitionError where
  | invalidDefinition (message : String)
deriving DecidableEq, Repr

/-- The registration path of the `run_status_sensor` decorator (source lines
793-822): choose `monitored_jobs` if truthy else `job_selection`; the source
then *constructs* a `DagsterInvalidDefinitionError` when both jobs and
`monitor_all_repositories` are given but never raises it (line 804), and
unconditionally constructs the `RunStatusSensorDefinition`. -/
def run_status_sensor_register (run_status : String) (event_type : String)
    (sensor_name : String) (monitored_jobs : Option (List MonitoredJob))
    (job_selection : Option (List MonitoredJob))
    (monitor_all_repositories : Bool) : Except DefinitionError SensorSetup :=
  let jobs : Option (List MonitoredJob) :=
    match monitored_jobs with
    | some js => if js = [] then job_selection else some js
    | none => job_selection
  let _discarded_error : Option DefinitionError :=
    match jobs with
    | some js =>
      if js ≠ [] ∧ monitor_all_repositories = true then
        some (DefinitionError.invalidDefinition
          "Cannot specify both monitor_all_repositories and monitored_jobs.")
      else none
    | none => none
  Except.ok
    { name := sensor_name, run_status := run_status, event_type := event_type,
      monitored_jobs := coerce_monitored_jobs
        (match jobs with | some js => js | none => []),
      monitor_all_repositories := monitor_all_repositories }

/-- An argument value supplied to a direct invocation: a
`RunStatusSensorContext`, `None`, or a value of some other type. -/
inductive ArgVal where
  | context (c : RunStatusSensorContextV)
  | noneVal
  | nonContext (tag : String)
deriving DecidableEq, Repr

/-- The outcome of a direct invocation: a `DagsterInvalidInvocationError`, a
parameter-check (type) error from `check.opt_inst_param`, or a single call of
the user function with the given argument. -/
inductive InvokeOutcome where
  | invalidInvocation (message : String)
  | checkError (message : String)
  | called (arg : Option RunStatusSensorContextV)
deriving DecidableEq, Repr

/-- Dispatch of `RunStatusSensorDefinition.__call__` (source lines 680-720): arity
dispatch for direct invocation.  `has_context_param` is
`has_at_least_one_parameter(fn)` resolved from the declared signature;
`context_param_name` is the name of its first parameter. -/
def sensor_call (has_context_param : Bool) (context_param_name : String)
    (args : List ArgVal) (kwargs : List (String × ArgVal)) : InvokeOutcome :=
  if has_context_param then
    if args.length + kwargs.length = 0 then
      InvokeOutcome.invalidInvocation
        "Run status sensor function expected context argument, but no context argument was provided when invoking."
    else if args.length + kwargs.length > 1 then
      InvokeOutcome.invalidInvocation
        "Run status sensor invocation received multiple arguments. Only a first positional context parameter should be provided when invoking."
    else
      match args with
      | a :: _ =>
        match a with
        | ArgVal.context c => InvokeOutcome.called (some c)
        | ArgVal.noneVal =>
          InvokeOutcome.invalidInvocation
            "Context must be provided for direct invocation of run status sensor."
        | ArgVal.nonContext t => InvokeOutcome.checkError t
      | [] =>
        match kwargs.lookup context_param_name with
        | none =>
          InvokeOutcome.invalidInvocation
            ("Run status sensor invocation expected argument " ++ context_param_name ++ ".")
        | some a =>
          match a with
          | ArgVal.context c => InvokeOutcome.called (some c)
          | ArgVal.noneVal =>
            InvokeOutcome.invalidInvocation
              "Context must be provided for direct invocation of run status sensor."
          | ArgVal.nonContext t => InvokeOutcome.checkError t
  else
    if args.length + kwargs.length > 0 then
      InvokeOutcome.invalidInvocation
        "Run status sensor decorated function has no arguments, but arguments were provided to invocation."
    else InvokeOutcome.called none

/-! ## Multi-tick runs (for the cursor-monotonicity invariant) -/

/-- The cursor string the driver holds after a tick: the last persisted
update, or the previous cursor when the tick persisted nothing. -/
def persisted_after (cv : Option SValue) (r : TickResult) : Option SValue :=
  match r.cursor_updates.getLast? with
  | some u => some (RunStatusSensorCursor.to_json u)
  | none => cv

/-- Run a sequence of ticks (each with its own store snapshot and clock),
threading the persisted cursor, and collect every cursor value persisted
along the way, in order. -/
def run_ticks (setup : SensorSetup) (repository_name : String)
    (fn : RunStatusSensorContextV → SensorFnResult) :
    List (StoreInstance × String) → Option SValue → List RunStatusSensorCursor
  | [], _ => []
  | (inst, now) :: rest, cv =>
    let r := wrapped_fn setup inst { repository_name := repository_name, cursor := cv } fn now
    r.cursor_updates ++
      run_ticks setup repository_name fn rest (persisted_after cv r)

/-- Decode an optional stored cursor string, `none` on absence or failure. -/
def from_json_opt : Option SValue → Option RunStatusSensorCursor
  | none => none
  | some v =>
    match RunStatusSensorCursor.from_json v with
    | Except.ok c => some c
    | Except.error _ => none

/-! ## Helper lemmas -/

/-- Serialization round-trip of the cursor codec (helper). -/
lemma from_json_to_json (c : RunStatusSensorCursor) :
    RunStatusSensorCursor.from_json (RunStatusSensorCursor.to_json c) = Except.ok c := rfl

/-! ## Claims -/

/-- C7: for every valid cursor `c`, `from_json (to_json c) = c`, and a cursor
value serialized under the legacy type name `PipelineSensorCursor` also
decodes successfully to the same cursor. -/
theorem cursor_codec_roundtrip_and_legacy (c : RunStatusSensorCursor) :
    RunStatusSensorCursor.from_json (RunStatusSensorCursor.to_json c) = Except.ok c ∧
    RunStatusSensorCursor.from_json
      { className := "PipelineSensorCursor",
        fields := [SField.fint "record_id" c.record_id,
                   SField.fstr "update_timestamp" c.update_timestamp] } = Except.ok c :=
  ⟨from_json_to_json c, rfl⟩

/-- C3: evaluating the `run_status_sensor` registration path with
`monitor_all_repositories = true` together with a non-empty `monitored_jobs`
succeeds and constructs a sensor definition holding both: the
`DagsterInvalidDefinitionError` the source builds at line 804 is never
raised, contradicting the documented behavior that an error is raised. -/
theorem register_accepts_monitor_all_with_monitored_jobs :
    run_status_sensor_register "FAILURE" "PIPELINE_FAILURE" "my_sensor"
      (some [MonitoredJob.currentJob "my_job"]) none true =
    Except.ok
      { name := "my_sensor", run_status := "FAILURE",
        event_type := "PIPELINE_FAILURE",
        monitored_jobs := [MonitoredJob.currentJob "my_job"],
        monitor_all_repositories := true } := rfl

/-- C10: direct-invocation arity dispatch of
`RunStatusSensorDefinition.__call__`: with a declared context parameter, zero
arguments or more than one argument raise `DagsterInvalidInvocationError`;
with no declared parameters, any argument raises; when the arity matches, the
user function is called exactly once with the supplied context (or with no
argument). -/
theorem sensor_call_arity_dispatch (pn : String) (args : List ArgVal)
    (kwargs : List (String × ArgVal)) (c : RunStatusSensorContextV) :
    (args.length + kwargs.length = 0 →
      ∃ m, sensor_call true pn args kwargs = InvokeOutcome.invalidInvocation m) ∧
    (args.length + kwargs.length > 1 →
      ∃ m, sensor_call true pn args kwargs = InvokeOutcome.invalidInvocation m) ∧
    (args.length + kwargs.length > 0 →
      ∃ m, sensor_call false pn args kwargs = InvokeOutcome.invalidInvocation m) ∧
    sensor_call true pn [ArgVal.context c] [] = InvokeOutcome.called (some c) ∧
    sensor_call false pn [] [] = InvokeOutcome.called none := by
  refine ⟨?_, ?_, ?_, rfl, rfl⟩
  · intro h
    exact ⟨"Run status sensor function expected context argument, but no context argument was provided when invoking.",
      by simp [sensor_call, h]⟩
  · intro h
    have h0 : ¬(args.length + kwargs.length = 0) := by omega
    exact ⟨"Run status sensor invocation received multiple arguments. Only a first positional context parameter should be provided when invoking.",
      by simp [sensor_call, h0, h]⟩
  · intro h
    exact ⟨"Run status sensor decorated function has no arguments, but arguments were provided to invocation.",
      by simp [sensor_call, h]⟩

/-- Fixture for the C10 witness: a concrete context value. -/
def wC10ctx : RunStatusSensorContextV :=
  { sensor_name := "s",
    dagster_run := { run_id := "r", pipeline_name := "j", external_pipeline_origin := none },
    dagster_event := { storage_id := 1, event_type := "T", run_id := "r", timestamp := "t" } }

/-- Witness for C10 at concrete invocations. -/
theorem sensor_call_arity_dispatch_witness :
    (∃ m, sensor_call true "context" [] [] = InvokeOutcome.invalidInvocation m) ∧
    (∃ m, sensor_call true "context" [ArgVal.noneVal, ArgVal.noneVal] [] =
      InvokeOutcome.invalidInvocation m) ∧
    (∃ m, sensor_call false "context" [ArgVal.noneVal] [] =
      InvokeOutcome.invalidInvocation m) ∧
    sensor_call true "context" [ArgVal.context wC10ctx] [] =
      InvokeOutcome.called (some wC10ctx) :=
  ⟨(sensor_call_arity_dispatch "context" [] [] wC10ctx).1 rfl,
   (sensor_call_arity_dispatch "context" [ArgVal.noneVal, ArgVal.noneVal] [] wC10ctx).2.1
     (by decide),
   (sensor_call_arity_dispatch "context" [ArgVal.noneVal] [] wC10ctx).2.2.1 (by decide),
   (sensor_call_arity_dispatch "context" [ArgVal.context wC10ctx] [] wC10ctx).2.2.2.1⟩

/-- Fixtures for C2: an event whose run resolved but has no external origin,
monitored by a sensor that is not monitor-all. -/
def c2_run : DagsterRun :=
  { run_id := "rm", pipeline_name := "job_m", external_pipeline_origin := none }

def c2_inst : StoreInstance :=
  { event_log := [{ storage_id := 1, event_type := "PIPELINE_FAILURE",
                    run_id := "rm", timestamp := "t1" }],
    run_db := [{ dagster_run := c2_run, update_timestamp := "um" }] }

def c2_setup : SensorSetup :=
  { name := "s", run_status := "FAILURE", event_type := "PIPELINE_FAILURE",
    monitored_jobs := [MonitoredJob.currentJob "job_a"],
    monitor_all_repositories := false }

def c2_fn : RunStatusSensorContextV → SensorFnResult :=
  fun _ => SensorFnResult.returnsNone

/-- C2: on an event whose resolved run has no external origin and a sensor
scope other than monitor-all, the tick does not skip the event — it raises a
check error (`check.not_none` on the missing origin, source line 588) and
persists no cursor update, instead of advancing the cursor and continuing. -/
theorem manual_run_without_origin_raises_check_error :
    wrapped_fn c2_setup c2_inst
      { repository_name := "repo",
        cursor := some (RunStatusSensorCursor.to_json
          { record_id := 0, update_timestamp := "t0" }) } c2_fn "now" =
      { cursor_updates := [], outputs := [], raised_check_error := true } ∧
    scope_match c2_setup "repo" c2_run = MatchOutcome.raisedCheck :=
  ⟨rfl, rfl⟩

/-- Fixtures for C1: a monitor-all sensor, a batch of two matching events
whose runs both resolve, and a user function that returns `None`. -/
def c1_run1 : DagsterRun :=
  { run_id := "r1", pipeline_name := "job_a",
    external_pipeline_origin := some { location_name := "loc", repository_name := "repo" } }

def c1_run2 : DagsterRun :=
  { run_id := "r2", pipeline_name := "job_b",
    external_pipeline_origin := some { location_name := "loc", repository_name := "repo" } }

def c1_inst : StoreInstance :=
  { event_log := [{ storage_id := 1, event_type := "PIPELINE_FAILURE",
                    run_id := "r1", timestamp := "t1" },
                  { storage_id := 2, event_type := "PIPELINE_FAILURE",
                    run_id := "r2", timestamp := "t2" }],
    run_db := [{ dagster_run := c1_run1, update_timestamp := "u1" },
               { dagster_run := c1_run2, update_timestamp := "u2" }] }

def c1_setup : SensorSetup :=
  { name := "s", run_status := "FAILURE", event_type := "PIPELINE_FAILURE",
    monitored_jobs := [], monitor_all_repositories := true }

def c1_fn : RunStatusSensorContextV → SensorFnResult :=
  fun _ => SensorFnResult.returnsNone

def c1_ctx : SensorEvalContext :=
  { repository_name := "repo",
    cursor := some (RunStatusSensorCursor.to_json
      { record_id := 0, update_timestamp := "t0" }) }

/-- C1 counterexample: a tick whose batch holds two matching events and whose
evaluator yields nothing emits *two* synthesized reactions — not exactly one
logical decision — and inspects (and consumes) the event after the matched
one in the same tick instead of stopping. -/
theorem tick_with_none_yield_emits_two_decisions :
    (wrapped_fn c1_setup c1_inst c1_ctx c1_fn "now").outputs =
      [TickOutput.pipelineRunReaction c1_run1 "FAILURE" none,
       TickOutput.pipelineRunReaction c1_run2 "FAILURE" none] ∧
    (wrapped_fn c1_setup c1_inst c1_ctx c1_fn "now").cursor_updates =
      [{ record_id := 1, update_timestamp := "u1" },
       { record_id := 2, update_timestamp := "u2" }] :=
  ⟨rfl, rfl⟩

/-- C1 (amended): at the first matching event of the batch the evaluator is
invoked exactly once; when it returns a non-None value the tick stops —
exactly the returned outputs are emitted and no later batch event is
inspected; when it returns `None` or raises, a single synthesized
`PipelineRunReaction` is emitted for that event, the cursor is advanced to
it, and the tick *continues* scanning the remaining batch events. -/
theorem first_match_decision (setup : SensorSetup) (repository_name : String)
    (db : List RunRecord) (fn : RunStatusSensorContextV → SensorFnResult)
    (er : EventRecord) (rest : List EventRecord) (rr : RunRecord)
    (hres : get_run_records db er.run_id = [rr])
    (hmatch : scope_match setup repository_name rr.dagster_run = MatchOutcome.matched) :
    (∀ outs, fn { sensor_name := setup.name, dagster_run := rr.dagster_run,
                  dagster_event := er } = SensorFnResult.returns outs →
      scan_events setup repository_name db fn (er :: rest) =
        { cursor_updates := [{ record_id := er.storage_id,
                               update_timestamp := rr.update_timestamp }],
          outputs := outs, raised_check_error := false }) ∧
    (fn { sensor_name := setup.name, dagster_run := rr.dagster_run,
          dagster_event := er } = SensorFnResult.returnsNone →
      scan_events setup repository_name db fn (er :: rest) =
        { cursor_updates := { record_id := er.storage_id,
                              update_timestamp := rr.update_timestamp } ::
            (scan_events setup repository_name db fn rest).cursor_updates,
          outputs := TickOutput.pipelineRunReaction rr.dagster_run setup.run_status none ::
            (scan_events setup repository_name db fn rest).outputs,
          raised_check_error :=
            (scan_events setup repository_name db fn rest).raised_check_error }) ∧
    (∀ e, fn { sensor_name := setup.name, dagster_run := rr.dagster_run,
               dagster_event := er } = SensorFnResult.raises e →
      scan_events setup repository_name db fn (er :: rest) =
        { cursor_updates := { record_id := er.storage_id,
                              update_timestamp := rr.update_timestamp } ::
            (scan_events setup repository_name db fn rest).cursor_updates,
          outputs := TickOutput.pipelineRunReaction rr.dagster_run setup.run_status
              (some { message := e.message, stack := e.stack }) ::
            (scan_events setup repository_name db fn rest).outputs,
          raised_check_error :=
            (scan_events setup repository_name db fn rest).raised_check_error }) := by
  refine ⟨?_, ?_, ?_⟩
  · intro outs hfn
    simp [scan_events, step_result, hres, hmatch, hfn]
  · intro hfn
    simp [scan_events, step_result, hres, hmatch, hfn]
  · intro e hfn
    simp [scan_events, step_result, hres, hmatch, hfn, serializable_error_info_from_exc_info]

/-- Fixtures for the C1 witness: a single matching event whose evaluator
returns one `RunRequest`. -/
def w1_run : DagsterRun :=
  { run_id := "r1", pipeline_name := "job_a",
    external_pipeline_origin := some { location_name := "loc", repository_name := "repo" } }

def w1_rr : RunRecord := { dagster_run := w1_run, update_timestamp := "u1" }

def w1_event : EventRecord :=
  { storage_id := 1, event_type := "PIPELINE_FAILURE", run_id := "r1", timestamp := "t1" }

def w1_setup : SensorSetup :=
  { name := "s", run_status := "FAILURE", event_type := "PIPELINE_FAILURE",
    monitored_jobs := [], monitor_all_repositories := true }

def w1_fn : RunStatusSensorContextV → SensorFnResult :=
  fun _ => SensorFnResult.returns [TickOutput.runRequest "go"]

/-- Witness for C1 (amended) at a concrete matching event. -/
theorem first_match_decision_witness :
    scan_events w1_setup "repo" [w1_rr] w1_fn [w1_event] =
      { cursor_updates := [{ record_id := 1, update_timestamp := "u1" }],
        outputs := [TickOutput.runRequest "go"], raised_check_error := false } :=
  (first_match_decision w1_setup "repo" [w1_rr] w1_fn w1_event [] w1_rr rfl rfl).1
    [TickOutput.runRequest "go"] rfl

/-- C9: when the run record of a batch event cannot be resolved (the run
lookup does not return exactly one record), the tick neither fails nor
invokes the evaluator for that event: it advances the cursor to the event's
id with the approximate timestamp derived from the event and continues with
the next event. -/
theorem unresolved_run_record_skips (setup : SensorSetup) (repository_name : String)
    (db : List RunRecord) (fn : RunStatusSensorContextV → SensorFnResult)
    (er : EventRecord) (rest : List EventRecord)
    (h : (get_run_records db er.run_id).length ≠ 1) :
    scan_events setup repository_name db fn (er :: rest) =
      TickResult.with_update
        { record_id := er.storage_id,
          update_timestamp := utc_datetime_from_timestamp er.timestamp }
        (scan_events setup repository_name db fn rest) := by
  rcases hrec : get_run_records db er.run_id with _ | ⟨a, _ | ⟨b, l⟩⟩
  · simp [scan_events, step_result, hrec]
  · rw [hrec] at h
    simp at h
  · simp [scan_events, step_result, hrec]

/-- Fixture for the C9 witness: an event with no matching run record. -/
def w9_event : EventRecord :=
  { storage_id := 3, event_type := "PIPELINE_FAILURE", run_id := "r9", timestamp := "t3" }

def w9_setup : SensorSetup :=
  { name := "s", run_status := "FAILURE", event_type := "PIPELINE_FAILURE",
    monitored_jobs := [], monitor_all_repositories := true }

def w9_fn : RunStatusSensorContextV → SensorFnResult :=
  fun _ => SensorFnResult.returnsNone

/-- Witness for C9 at a concrete unresolvable event. -/
theorem unresolved_run_record_skips_witness :
    scan_events w9_setup "repo" [] w9_fn [w9_event] =
      TickResult.with_update
        { record_id := 3, update_timestamp := utc_datetime_from_timestamp "t3" }
        (scan_events w9_setup "repo" [] w9_fn []) :=
  unresolved_run_record_skips w9_setup "repo" [] w9_fn w9_event [] (by decide)

/-- C6: an exception raised by the user function on a matched event is caught
at the evaluator boundary, converted to a serializable error descriptor
preserving its message and structured trace, and surfaced as a
`PipelineRunReaction` carrying that error; the cursor for the event is still
advanced, and the tick raises no exception of its own for this event (its
error flag is exactly that of the remaining scan). -/
theorem evaluator_error_captured (setup : SensorSetup) (repository_name : String)
    (db : List RunRecord) (fn : RunStatusSensorContextV → SensorFnResult)
    (er : EventRecord) (rest : List EventRecord) (rr : RunRecord) (exc : ExcInfo)
    (hres : get_run_records db er.run_id = [rr])
    (hmatch : scope_match setup repository_name rr.dagster_run = MatchOutcome.matched)
    (hfn : fn { sensor_name := setup.name, dagster_run := rr.dagster_run,
                dagster_event := er } = SensorFnResult.raises exc) :
    scan_events setup repository_name db fn (er :: rest) =
      { cursor_updates := { record_id := er.storage_id,
                            update_timestamp := rr.update_timestamp } ::
          (scan_events setup repository_name db fn rest).cursor_updates,
        outputs := TickOutput.pipelineRunReaction rr.dagster_run setup.run_status
            (some { message := exc.message, stack := exc.stack }) ::
          (scan_events setup repository_name db fn rest).outputs,
        raised_check_error :=
          (scan_events setup repository_name db fn rest).raised_check_error } := by
  simp [scan_events, step_result, hres, hmatch, hfn, serializable_error_info_from_exc_info]

/-- Fixtures for the C6 witness: a matching event whose evaluator raises. -/
def w6_fn : RunStatusSensorContextV → SensorFnResult :=
  fun _ => SensorFnResult.raises { message := "boom", stack := ["frame1", "frame2"] }

/-- Witness for C6 at a concrete raising evaluator. -/
theorem evaluator_error_captured_witness :
    scan_events w1_setup "repo" [w1_rr] w6_fn [w1_event] =
      { cursor_updates := [{ record_id := 1, update_timestamp := "u1" }],
        outputs := [TickOutput.pipelineRunReaction w1_run "FAILURE"
          (some { message := "boom", stack := ["frame1", "frame2"] })],
        raised_check_error := false } :=
  evaluator_error_captured w1_setup "repo" [w1_rr] w6_fn w1_event [] w1_rr
    { message := "boom", stack := ["frame1", "frame2"] } rfl rfl rfl

/-- Helper: the bootstrap query returns the id of the last event of the
monitored type, or `-1` when none exists. -/
lemma most_recent_eq (log : List EventRecord) (et : String) :
    most_recent_event_id log et =
      match (log.filter (fun x => decide (x.event_type = et))).getLast? with
      | some x => x.storage_id
      | none => -1 := by
  unfold most_recent_event_id get_event_records_desc
  rcases hrev : (log.filter (fun x => decide (x.event_type = et))).reverse with _ | ⟨x, xs⟩
  · have hnil : log.filter (fun x => decide (x.event_type = et)) = [] :=
      List.reverse_eq_nil_iff.mp hrev
    simp [hnil]
  · have hlast : (log.filter (fun x => decide (x.event_type = et))).getLast? = some x := by
      rw [← List.head?_reverse, hrev]
      rfl
    simp [hrev, hlast]

/-- Helper: the last element of a list is a member. -/
lemma mem_of_getLast?_eq {α : Type} {l : List α} {x : α} (h : l.getLast? = some x) :
    x ∈ l := by
  rcases List.mem_getLast?_eq_getLast (Option.mem_def.mpr h) with ⟨hne, rfl⟩
  exact List.getLast_mem hne

/-- Helper: in a strictly ascending list, every element's id is bounded by
the last element's id. -/
lemma le_getLast_of_pairwise_lt :
    ∀ (l : List EventRecord),
      l.Pairwise (fun a b => a.storage_id < b.storage_id) →
      ∀ e ∈ l, ∀ x, l.getLast? = some x → e.storage_id ≤ x.storage_id := by
  intro l
  induction l with
  | nil => intro _ e he; cases he
  | cons a t ih =>
    intro h e he x hx
    rcases t with _ | ⟨b, t2⟩
    · simp at hx
      rcases List.mem_singleton.mp he with rfl
      rw [← hx]
    · rw [List.getLast?_cons_cons] at hx
      have hxmem : x ∈ b :: t2 := mem_of_getLast?_eq hx
      rcases List.mem_cons.mp he with rfl | hemem
      · exact le_of_lt ((List.pairwise_cons.mp h).1 x hxmem)
      · exact ih (List.pairwise_cons.mp h).2 e hemem x hx

/-- Fixtures for the C5 witness. -/
def w5_inst : StoreInstance :=
  { event_log := [{ storage_id := 4, event_type := "PIPELINE_FAILURE",
                    run_id := "r4", timestamp := "t4" },
                  { storage_id := 9, event_type := "PIPELINE_SUCCESS",
                    run_id := "r9", timestamp := "t9" },
                  { storage_id := 11, event_type := "PIPELINE_FAILURE",
                    run_id := "r11", timestamp := "t11" }],
    run_db := [] }

def w5_setup : SensorSetup :=
  { name := "boot", run_status := "FAILURE", event_type := "PIPELINE_FAILURE",
    monitored_jobs := [], monitor_all_repositories := false }

def w5_fn : RunStatusSensorContextV → SensorFnResult :=
  fun _ => SensorFnResult.returnsNone

/-- C5: a tick with no stored cursor, or a stored cursor failing `is_valid`,
evaluates no pre-existing event (the result does not depend on the user
function and yields no reaction), emits exactly one `SkipReason`, and
persists a single cursor whose `record_id` is the latest existing event id of
the monitored type, or `-1` when no such event exists. -/
theorem bootstrap_tick_skips_history (setup : SensorSetup) (inst : StoreInstance)
    (ctx : SensorEvalContext) (fn : RunStatusSensorContextV → SensorFnResult)
    (now : String)
    (hsorted : inst.event_log.Pairwise (fun a b => a.storage_id < b.storage_id))
    (hboot : ctx.cursor = none ∨
      ∃ cv, ctx.cursor = some cv ∧ RunStatusSensorCursor.is_valid cv = false) :
    wrapped_fn setup inst ctx fn now =
      { cursor_updates := [{ record_id := most_recent_event_id inst.event_log setup.event_type,
                             update_timestamp := now }],
        outputs := [TickOutput.skipReason ("Initiating " ++ setup.name ++
          ". Set cursor to record_id " ++
          toString (most_recent_event_id inst.event_log setup.event_type))],
        raised_check_error := false } ∧
    ((∀ e ∈ inst.event_log, e.event_type ≠ setup.event_type) →
      most_recent_event_id inst.event_log setup.event_type = -1) ∧
    (∀ e ∈ inst.event_log, e.event_type = setup.event_type →
      e.storage_id ≤ most_recent_event_id inst.event_log setup.event_type) := by
  refine ⟨?_, ?_, ?_⟩
  · rcases hboot with hnone | ⟨cv, hcv, hinvalid⟩
    · simp [wrapped_fn, hnone]
    · rcases hfj : RunStatusSensorCursor.from_json cv with e | c
      · simp [wrapped_fn, hcv, hfj]
      · rw [RunStatusSensorCursor.is_valid, hfj] at hinvalid
        cases hinvalid
  · intro hnotype
    rw [most_recent_eq]
    have hnil : inst.event_log.filter
        (fun x => decide (x.event_type = setup.event_type)) = [] := by
      apply List.filter_eq_nil_iff.mpr
      intro a ha
      simpa using hnotype a ha
    simp [hnil]
  · intro e he het
    rw [most_recent_eq]
    have hmemf : e ∈ inst.event_log.filter
        (fun x => decide (x.event_type = setup.event_type)) := by
      apply List.mem_filter.mpr
      exact ⟨he, by simpa using het⟩
    have hpair : (inst.event_log.filter
        (fun x => decide (x.event_type = setup.event_type))).Pairwise
        (fun a b => a.storage_id < b.storage_id) :=
      hsorted.sublist (List.filter_sublist _)
    rcases hlast : (inst.event_log.filter
        (fun x => decide (x.event_type = setup.event_type))).getLast? with _ | x
    · rw [List.getLast?_eq_none_iff.mp hlast] at hmemf
      cases hmemf
    · simp only [hlast]
      exact le_getLast_of_pairwise_lt _ hpair e hmemf x hlast

/-- Witness for C5: a fresh sensor (no cursor) against a non-empty log. -/
theorem bootstrap_tick_skips_history_witness :
    wrapped_fn w5_setup w5_inst { repository_name := "repo", cursor := none } w5_fn "T0" =
      { cursor_updates := [{ record_id := most_recent_event_id w5_inst.event_log "PIPELINE_FAILURE",
                             update_timestamp := "T0" }],
        outputs := [TickOutput.skipReason ("Initiating " ++ "boot" ++
          ". Set cursor to record_id " ++
          toString (most_recent_event_id w5_inst.event_log "PIPELINE_FAILURE"))],
        raised_check_error := false } ∧
    (11 : Int) ≤ most_recent_event_id w5_inst.event_log "PIPELINE_FAILURE" := by
  have h := bootstrap_tick_skips_history w5_setup w5_inst
    { repository_name := "repo", cursor := none } w5_fn "T0" (by decide) (Or.inl rfl)
  exact ⟨h.1, h.2.2 { storage_id := 11, event_type := "PIPELINE_FAILURE",
                      run_id := "r11", timestamp := "t11" } (by decide) rfl⟩

/-- C8: in a scanning tick (valid cursor `c`), the core consults the event
store for at most 5 events of the monitored type with id strictly greater
than `c.record_id`, in ascending id order, and the scan loop runs over
exactly that batch. -/
theorem scanning_fetch_bounded (setup : SensorSetup) (inst : StoreInstance)
    (ctx : SensorEvalContext) (fn : RunStatusSensorContextV → SensorFnResult)
    (now : String) (cv : SValue) (c : RunStatusSensorCursor)
    (hcv : ctx.cursor = some cv)
    (hok : RunStatusSensorCursor.from_json cv = Except.ok c)
    (hsorted : inst.event_log.Pairwise (fun a b => a.storage_id < b.storage_id)) :
    wrapped_fn setup inst ctx fn now =
      scan_events setup ctx.repository_name inst.run_db fn
        (get_event_records_asc inst.event_log setup.event_type c.record_id 5) ∧
    (get_event_records_asc inst.event_log setup.event_type c.record_id 5).length ≤ 5 ∧
    (∀ e ∈ get_event_records_asc inst.event_log setup.event_type c.record_id 5,
      c.record_id < e.storage_id ∧ e.event_type = setup.event_type) ∧
    (get_event_records_asc inst.event_log setup.event_type c.record_id 5).Pairwise
      (fun a b => a.storage_id < b.storage_id) := by
  refine ⟨?_, ?_, ?_, ?_⟩
  · simp [wrapped_fn, hcv, hok]
  · simp [get_event_records_asc]
  · intro e he
    have hmemf : e ∈ inst.event_log.filter
        (fun e => decide (e.event_type = setup.event_type ∧ c.record_id < e.storage_id)) :=
      List.mem_of_mem_take he
    have hp := of_decide_eq_true (List.mem_filter.mp hmemf).2
    exact ⟨hp.2, hp.1⟩
  · exact hsorted.sublist
      ((List.take_sublist _ _).trans (List.filter_sublist _))

/-- Fixtures for the C8 witness: a sensor 5+ events behind the frontier. -/
def w8_log : List EventRecord :=
  [{ storage_id := 1, event_type := "PIPELINE_FAILURE", run_id := "a", timestamp := "1" },
   { storage_id := 2, event_type := "PIPELINE_FAILURE", run_id := "b", timestamp := "2" },
   { storage_id := 3, event_type := "PIPELINE_FAILURE", run_id := "c", timestamp := "3" },
   { storage_id := 4, event_type := "PIPELINE_FAILURE", run_id := "d", timestamp := "4" },
   { storage_id := 5, event_type := "PIPELINE_FAILURE", run_id := "e", timestamp := "5" },
   { storage_id := 6, event_type := "PIPELINE_FAILURE", run_id := "f", timestamp := "6" },
   { storage_id := 7, event_type := "PIPELINE_FAILURE", run_id := "g", timestamp := "7" }]

def w8_inst : StoreInstance := { event_log := w8_log, run_db := [] }

def w8_setup : SensorSetup :=
  { name := "s8", run_status := "FAILURE", event_type := "PIPELINE_FAILURE",
    monitored_jobs := [], monitor_all_repositories := true }

def w8_fn : RunStatusSensorContextV → SensorFnResult :=
  fun _ => SensorFnResult.returnsNone

def w8_cursor : RunStatusSensorCursor := { record_id := 2, update_timestamp := "u" }

/-- Witness for C8: a concrete scanning tick from a cursor 5 events behind. -/
theorem scanning_fetch_bounded_witness :
    wrapped_fn w8_setup w8_inst
      { repository_name := "repo", cursor := some (RunStatusSensorCursor.to_json w8_cursor) }
      w8_fn "now" =
      scan_events w8_setup "repo" [] w8_fn
        (get_event_records_asc w8_log "PIPELINE_FAILURE" 2 5) ∧
    (get_event_records_asc w8_log "PIPELINE_FAILURE" 2 5).length ≤ 5 := by
  have h := scanning_fetch_bounded w8_setup w8_inst
    { repository_name := "repo", cursor := some (RunStatusSensorCursor.to_json w8_cursor) }
    w8_fn "now" (RunStatusSensorCursor.to_json w8_cursor) w8_cursor rfl
    (from_json_to_json w8_cursor) (by decide)
  exact ⟨h.1, h.2.1⟩

/-! ## Cursor monotonicity (C4) -/

/-- Helper: one scan step only appends cursor updates at the current event's
id, so any lower bound below that id is preserved as a chain. -/
lemma step_result_chain (setup : SensorSetup) (repository_name : String)
    (db : List RunRecord) (fn : RunStatusSensorContextV → SensorFnResult)
    (er : EventRecord) (rest : TickResult) (c : RunStatusSensorCursor)
    (hlt : c.record_id < er.storage_id)
    (hrest : ∀ u : RunStatusSensorCursor, u.record_id = er.storage_id →
      List.Chain (fun x y : RunStatusSensorCursor => x.record_id ≤ y.record_id) u
        rest.cursor_updates) :
    List.Chain (fun x y : RunStatusSensorCursor => x.record_id ≤ y.record_id) c
      (step_result setup repository_name db fn er rest).cursor_updates := by
  unfold step_result
  split
  · split
    · exact List.Chain.nil
    · exact List.Chain.cons (le_of_lt hlt) (hrest _ rfl)
    · split
      · exact List.Chain.cons (le_of_lt hlt) List.Chain.nil
      · exact List.Chain.cons (le_of_lt hlt) (hrest _ rfl)
      · exact List.Chain.cons (le_of_lt hlt) (hrest _ rfl)
  · exact List.Chain.cons (le_of_lt hlt) (hrest _ rfl)

/-- Helper: over a strictly ascending batch entirely above the cursor, the
scan loop's persisted cursor ids form a non-decreasing chain from the
starting cursor. -/
lemma scan_events_chain (setup : SensorSetup) (repository_name : String)
    (db : List RunRecord) (fn : RunStatusSensorContextV → SensorFnResult) :
    ∀ (batch : List EventRecord) (c : RunStatusSensorCursor),
      (∀ e ∈ batch, c.record_id < e.storage_id) →
      batch.Pairwise (fun a b => a.storage_id < b.storage_id) →
      List.Chain (fun x y : RunStatusSensorCursor => x.record_id ≤ y.record_id) c
        (scan_events setup repository_name db fn batch).cursor_updates := by
  intro batch
  induction batch with
  | nil => intro c _ _; exact List.Chain.nil
  | cons er rest ih =>
    intro c hgt hpair
    apply step_result_chain setup repository_name db fn er _ c
      (hgt er (List.mem_cons_self er rest))
    intro u hu
    apply ih
    · intro e he
      rw [hu]
      exact (List.pairwise_cons.mp hpair).1 e he
    · exact (List.pairwise_cons.mp hpair).2

/-- Helper: a chain with an initial point yields a chain without it. -/
lemma chain_imp_chain_next {α : Type} {R : α → α → Prop} :
    ∀ {l : List α} {a : α}, List.Chain R a l → List.Chain' R l
  | [], _, _ => trivial
  | _ :: _, _, h => by
    cases h with
    | cons _ ht => exact ht

/-- Helper: glue a chain on `l₁` with a chain on `l₂` starting from the last
element of `l₁` (or from the common bound when `l₁` is empty). -/
lemma chain_append_persist {α : Type} {R : α → α → Prop} :
    ∀ (l₁ : List α) (a : α) (l₂ : List α),
      List.Chain R a l₁ →
      (∀ u, l₁.getLast? = some u → List.Chain R u l₂) →
      (l₁ = [] → List.Chain R a l₂) →
      List.Chain R a (l₁ ++ l₂)
  | [], _, _, _, _, h3 => h3 rfl
  | [x], _, l₂, h1, h2, _ => by
    cases h1 with
    | cons hax _ => exact List.Chain.cons hax (h2 x (by simp))
  | x :: y :: t, _, l₂, h1, h2, _ => by
    cases h1 with
    | cons hax ht =>
      exact List.Chain.cons hax
        (chain_append_persist (y :: t) x l₂ ht
          (fun u hu => h2 u (by rw [List.getLast?_cons_cons]; exact hu))
          (fun h => by cases h))

/-- Helper: a tick that persists nothing leaves the stored cursor as it was. -/
lemma persisted_after_nil (cv : Option SValue) (r : TickResult)
    (h : r.cursor_updates = []) : persisted_after cv r = cv := by
  unfold persisted_after
  rw [h]
  rfl

/-- Helper: after a tick that persists at least one cursor, the stored cursor
decodes to the last persisted update. -/
lemma from_json_opt_persisted (cv : Option SValue) (r : TickResult)
    (u : RunStatusSensorCursor) (h : r.cursor_updates.getLast? = some u) :
    from_json_opt (persisted_after cv r) = some u := by
  unfold persisted_after
  rw [h]
  simp [from_json_opt, from_json_to_json]

/-- Helper: with no decodable stored cursor the tick bootstraps, persisting a
single cursor. -/
lemma wrapped_fn_bootstrap_updates (setup : SensorSetup) (inst : StoreInstance)
    (rn : String) (fn : RunStatusSensorContextV → SensorFnResult) (now : String)
    (cv : Option SValue) (h : from_json_opt cv = none) :
    (wrapped_fn setup inst { repository_name := rn, cursor := cv } fn now).cursor_updates =
      [{ record_id := most_recent_event_id inst.event_log setup.event_type,
         update_timestamp := now }] := by
  rcases cv with _ | v
  · rfl
  · rcases hfj : RunStatusSensorCursor.from_json v with e | c
    · simp [wrapped_fn, hfj]
    · simp [from_json_opt, hfj] at h

/-- Helper: with a decodable stored cursor the tick scans the fetched batch. -/
lemma wrapped_fn_scan (setup : SensorSetup) (inst : StoreInstance) (rn : String)
    (fn : RunStatusSensorContextV → SensorFnResult) (now : String) (v : SValue)
    (c : RunStatusSensorCursor) (hok : RunStatusSensorCursor.from_json v = Except.ok c) :
    wrapped_fn setup inst { repository_name := rn, cursor := some v } fn now =
      scan_events setup rn inst.run_db fn
        (get_event_records_asc inst.event_log setup.event_type c.record_id 5) := by
  simp [wrapped_fn, hok]

/-- Helper: the cursor updates of a scanning tick chain upward from the
decoded starting cursor. -/
lemma wrapped_fn_chain (setup : SensorSetup) (inst : StoreInstance) (rn : String)
    (fn : RunStatusSensorContextV → SensorFnResult) (now : String) (v : SValue)
    (c : RunStatusSensorCursor) (hok : RunStatusSensorCursor.from_json v = Except.ok c)
    (hsorted : inst.event_log.Pairwise (fun a b => a.storage_id < b.storage_id)) :
    List.Chain (fun x y : RunStatusSensorCursor => x.record_id ≤ y.record_id) c
      (wrapped_fn setup inst { repository_name := rn, cursor := some v } fn
        now).cursor_updates := by
  rw [wrapped_fn_scan setup inst rn fn now v c hok]
  apply scan_events_chain
  · intro e he
    have hm : e ∈ inst.event_log.filter
        (fun e => decide (e.event_type = setup.event_type ∧ c.record_id < e.storage_id)) :=
      List.mem_of_mem_take he
    exact (of_decide_eq_true (List.mem_filter.mp hm).2).2
  · exact hsorted.sublist ((List.take_sublist _ _).trans (List.filter_sublist _))

/-- Helper: the full sequence of cursors persisted over any run of ticks
forms a non-decreasing chain, and chains upward from any decodable starting
cursor. -/
lemma run_ticks_chain_aux (setup : SensorSetup) (rn : String)
    (fn : RunStatusSensorContextV → SensorFnResult) :
    ∀ (ticks : List (StoreInstance × String)) (cv : Option SValue),
      (∀ t ∈ ticks, t.1.event_log.Pairwise (fun a b => a.storage_id < b.storage_id)) →
      List.Chain' (fun x y : RunStatusSensorCursor => x.record_id ≤ y.record_id)
        (run_ticks setup rn fn ticks cv) ∧
      (∀ c, from_json_opt cv = some c →
        List.Chain (fun x y : RunStatusSensorCursor => x.record_id ≤ y.record_id) c
          (run_ticks setup rn fn ticks cv)) := by
  intro ticks
  induction ticks with
  | nil =>
    intro cv _
    exact ⟨trivial, fun c _ => List.Chain.nil⟩
  | cons t rest ih =>
    rcases t with ⟨inst, now⟩
    intro cv hs
    have hsorted := hs (inst, now) (List.mem_cons_self _ _)
    have hrestS : ∀ t ∈ rest, t.1.event_log.Pairwise
        (fun a b => a.storage_id < b.storage_id) :=
      fun t ht => hs t (List.mem_cons_of_mem _ ht)
    have hrun : run_ticks setup rn fn ((inst, now) :: rest) cv =
        (wrapped_fn setup inst { repository_name := rn, cursor := cv } fn now).cursor_updates ++
          run_ticks setup rn fn rest
            (persisted_after cv
              (wrapped_fn setup inst { repository_name := rn, cursor := cv } fn now)) := rfl
    rcases hdec : from_json_opt cv with _ | c
    · -- bootstrap tick: a single persisted cursor, then a valid stored cursor
      have hup := wrapped_fn_bootstrap_updates setup inst rn fn now cv hdec
      have hlastu : (wrapped_fn setup inst { repository_name := rn, cursor := cv } fn
          now).cursor_updates.getLast? =
          some { record_id := most_recent_event_id inst.event_log setup.event_type,
                 update_timestamp := now } := by
        rw [hup]
        simp
      have hvalid := from_json_opt_persisted cv _ _ hlastu
      have htail := ih (persisted_after cv
        (wrapped_fn setup inst { repository_name := rn, cursor := cv } fn now)) hrestS
      refine ⟨?_, ?_⟩
      · rw [hrun, hup]
        exact htail.2 _ hvalid
      · intro c hc
        cases hc
    · -- scanning tick: chain from the decoded cursor, glued with the rest
      rcases cv with _ | v
      · cases hdec
      · have hok : RunStatusSensorCursor.from_json v = Except.ok c := by
          rcases hfj : RunStatusSensorCursor.from_json v with e | c2
          · exfalso
            have h3 : from_json_opt (some v) = none := by simp [from_json_opt, hfj]
            have h4 : (none : Option RunStatusSensorCursor) = some c := h3.symm.trans hdec
            cases h4
          · have h3 : from_json_opt (some v) = some c2 := by simp [from_json_opt, hfj]
            have h4 : some c2 = some c := h3.symm.trans hdec
            cases h4
            rfl
        have hchain := wrapped_fn_chain setup inst rn fn now v c hok hsorted
        have htail := ih (persisted_after (some v)
          (wrapped_fn setup inst { repository_name := rn, cursor := some v } fn now)) hrestS
        have hcombined : List.Chain
            (fun x y : RunStatusSensorCursor => x.record_id ≤ y.record_id) c
            (run_ticks setup rn fn ((inst, now) :: rest) (some v)) := by
          rw [hrun]
          apply chain_append_persist _ _ _ hchain
          · intro u hu
            exact htail.2 u (from_json_opt_persisted (some v) _ u hu)
          · intro hnil
            have hkeep := persisted_after_nil (some v)
              (wrapped_fn setup inst { repository_name := rn, cursor := some v } fn now) hnil
            rw [hkeep] at htail ⊢
            exact htail.2 c hdec
        refine ⟨chain_imp_chain_next hcombined, ?_⟩
        intro c2 hc2
        cases hc2
        exact hcombined

/-- C4: across every sequence of ticks of one sensor (starting fresh), the
sequence of persisted cursors is non-decreasing in `record_id`: every cursor
update within a tick writes a `record_id` greater than or equal to the
previously persisted one. -/
theorem cursor_record_id_monotone (setup : SensorSetup) (repository_name : String)
    (fn : RunStatusSensorContextV → SensorFnResult)
    (ticks : List (StoreInstance × String))
    (hs : ∀ t ∈ ticks, t.1.event_log.Pairwise (fun a b => a.storage_id < b.storage_id)) :
    List.Chain' (fun x y : RunStatusSensorCursor => x.record_id ≤ y.record_id)
      (run_ticks setup repository_name fn ticks none) :=
  (run_ticks_chain_aux setup repository_name fn ticks none hs).1

/-- Fixtures for the C4 witness: two ticks over a growing log. -/
def w4_run : DagsterRun :=
  { run_id := "ra", pipeline_name := "job_a",
    external_pipeline_origin := some { location_name := "loc", repository_name := "repo" } }

def w4_inst1 : StoreInstance :=
  { event_log := [{ storage_id := 1, event_type := "PIPELINE_FAILURE",
                    run_id := "ra", timestamp := "t1" }],
    run_db := [{ dagster_run := w4_run, update_timestamp := "u1" }] }

def w4_inst2 : StoreInstance :=
  { event_log := [{ storage_id := 1, event_type := "PIPELINE_FAILURE",
                    run_id := "ra", timestamp := "t1" },
                  { storage_id := 2, event_type := "PIPELINE_FAILURE",
                    run_id := "ra", timestamp := "t2" },
                  { storage_id := 3, event_type := "PIPELINE_FAILURE",
                    run_id := "ra", timestamp := "t3" }],
    run_db := [{ dagster_run := w4_run, update_timestamp := "u2" }] }

def w4_setup : SensorSetup :=
  { name := "s4", run_status := "FAILURE", event_type := "PIPELINE_FAILURE",
    monitored_jobs := [], monitor_all_repositories := true }

def w4_fn : RunStatusSensorContextV → SensorFnResult :=
  fun _ => SensorFnResult.returnsNone

/-- Witness for C4: a concrete two-tick run. -/
theorem cursor_record_id_monotone_witness :
    List.Chain' (fun x y : RunStatusSensorCursor => x.record_id ≤ y.record_id)
      (run_ticks w4_setup "repo" w4_fn [(w4_inst1, "T1"), (w4_inst2, "T2")] none) :=
  cursor_record_id_monotone w4_setup "repo" w4_fn [(w4_inst1, "T1"), (w4_inst2, "T2")]
    (by decide)

end Dagster
